import Mathlib

/-!
# Verification of the copilot-orchestra repository's utilities

Shallow embedding, in Lean 4, of the executable logic of the repository:

* `tools/project-init.js` — the Project Initialization Wizard (menu selection,
  endpoint parsing, template generation including Docker files),
* the Error Recovery Tool (issue scan and auto-fix),
* `tools/blueprint-generator.js` — project identity detection,
* `.roo/local-rag-llamaindex/start.sh` — the health-check poll loop,
* `.github/agents/quality-assurance-subagent.agent.md` — the declarative
  quality-assurance rule tables, rendered as a decision function.

Interactive prompts are modelled by passing the operator's answers as explicit
arguments; the filesystem is modelled by explicit state records; file writes
are modelled by the list of file names (and, where a claim needs it, contents)
a run produces.
-/

namespace Orchestra

/-! ## JavaScript primitives

Semantics of the JavaScript idioms the tools rely on: `parseInt`, array
indexing returning `undefined` out of range, and the `x || default` pattern
(empty strings are falsy, arrays — even empty ones — are truthy). -/

/-- JavaScript `\s` white-space characters (the ASCII ones plus NBSP/BOM;
inputs to the tools are ASCII lines read by `readline`). -/
def isJsWhitespace (c : Char) : Bool :=
  c = ' ' || c = '\t' || c = '\n' || c = '\r' ||
  c = '\x0b' || c = '\x0c' || c = '\u00A0' || c = '\uFEFF'

/-- Line terminators, which JavaScript's `.` (without the `s` flag) does not
match. -/
def isLineTerminator (c : Char) : Bool :=
  c = '\n' || c = '\r' || c = '\u2028' || c = '\u2029'

/-- Value of a character as a digit in the given radix, if it is one. -/
def digitValue (radix : Nat) (c : Char) : Option Nat :=
  let v : Option Nat :=
    if '0' ≤ c ∧ c ≤ '9' then some (c.toNat - '0'.toNat)
    else if 'a' ≤ c ∧ c ≤ 'z' then some (c.toNat - 'a'.toNat + 10)
    else if 'A' ≤ c ∧ c ≤ 'Z' then some (c.toNat - 'A'.toNat + 10)
    else none
  match v with
  | some n => if n < radix then some n else none
  | none => none

/-- JavaScript `parseInt(s)` (radix argument omitted, as in the wizard):
skip leading white space, read an optional sign, honour a `0x`/`0X` prefix,
then take the maximal digit prefix; `none` models `NaN`. -/
def jsParseInt (s : String) : Option Int :=
  let cs := s.toList.dropWhile isJsWhitespace
  let (sign, cs) : Int × List Char :=
    match cs with
    | '-' :: rest => (-1, rest)
    | '+' :: rest => (1, rest)
    | _ => (1, cs)
  let (radix, cs) : Nat × List Char :=
    match cs with
    | '0' :: 'x' :: rest => (16, rest)
    | '0' :: 'X' :: rest => (16, rest)
    | _ => (10, cs)
  let digits := cs.takeWhile (fun c => (digitValue radix c).isSome)
  if digits.isEmpty then none
  else
    some (sign * Int.ofNat (digits.foldl
      (fun acc c => acc * radix + ((digitValue radix c).getD 0)) 0))

/-- JavaScript array indexing `a[i]` for an integer index: `undefined`
(`none`) when the index is negative or past the end. -/
def jsIndex (options : List String) (i : Int) : Option String :=
  if i < 0 then none else options.get? i.toNat

/-- Same, for an array of arrays (the environment-set presets). -/
def jsIndexList (options : List (List String)) (i : Int) : Option (List String) :=
  if i < 0 then none else options.get? i.toNat

/-- JavaScript `x || d` for a possibly-undefined string `x`: the empty string
is falsy, so it also falls back to the default. -/
def jsOrString (x : Option String) (d : String) : String :=
  match x with
  | some s => if s = "" then d else s
  | none => d

/-- JavaScript `x || d` for a possibly-undefined array `x`: every array is
truthy, even the empty one. -/
def jsOrList (x : Option (List String)) (d : List String) : List String :=
  match x with
  | some l => l
  | none => d

/-- JavaScript `String.prototype.trim`. -/
def jsTrim (s : String) : String :=
  ⟨(s.toList.dropWhile isJsWhitespace).reverse.dropWhile isJsWhitespace |>.reverse⟩

/-! ## Project Initialization Wizard: numbered menu prompts

`tools/project-init.js` answers every numbered menu with the idiom
`options[parseInt(answer) - 1] || default`.  The fixed option lists below are
transcribed from the source. -/

/-- List `types` of `gatherProjectInfo` (project-init.js:109). -/
def projectTypeOptions : List String :=
  ["web-app", "rest-api", "graphql-api", "cli-tool", "microservice",
   "library", "mobile-backend", "other"]

/-- List `languages` of `gatherProjectInfo` (project-init.js:123). -/
def languageOptions : List String :=
  ["nodejs", "python", "java", "go", "ruby", "dotnet", "php", "other"]

/-- List `frameworks` of `gatherProjectInfo` (project-init.js:136). -/
def frontendOptions : List String :=
  ["react", "vue", "angular", "nextjs", "svelte", "none"]

/-- List `patterns` of `defineArchitecture` (project-init.js:155). -/
def architectureOptions : List String :=
  ["monolithic", "microservices", "serverless", "layered", "event-driven", "cqrs"]

/-- List `caches` of `defineArchitecture` (project-init.js:172). -/
def cacheOptions : List String :=
  ["redis", "memcached", "in-memory", "cdn"]

/-- List `queues` of `defineArchitecture` (project-init.js:186). -/
def queueOptions : List String :=
  ["rabbitmq", "kafka", "aws-sqs", "redis-queue", "other"]

/-- List `databases` of `defineDatabaseRequirements` (project-init.js:262). -/
def databaseOptions : List String :=
  ["postgresql", "mysql", "mongodb", "sqlite", "redis", "dynamodb",
   "cassandra", "multiple"]

/-- List `authTypes` of `defineAuthentication` (project-init.js:300). -/
def authOptions : List String :=
  ["jwt", "oauth2", "session", "api-key", "saml", "multiple"]

/-- List `deployTargets` of `defineDeploymentTargets` (project-init.js:333). -/
def deployTargetOptions : List String :=
  ["docker", "kubernetes", "aws", "azure", "gcp", "heroku", "vercel", "traditional"]

/-- List `ciPlatforms` of `defineDeploymentTargets` (project-init.js:350). -/
def ciPlatformOptions : List String :=
  ["github-actions", "gitlab-ci", "jenkins", "circleci", "travis"]

/-- List `envSetups` of `defineEnvironment` (project-init.js:393). -/
def envSetupOptions : List (List String) :=
  [["development", "staging", "production"],
   ["development", "production"],
   ["development"],
   []]

/-- The wizard's single-choice menu idiom
`options[parseInt(answer) - 1] || default`. -/
def menuSelect (options : List String) (dflt : String) (answer : String) : String :=
  jsOrString ((jsParseInt answer).bind (fun n => jsIndex options (n - 1))) dflt

/-- Project-type question (project-init.js:110). -/
def selectProjectType (answer : String) : String :=
  menuSelect projectTypeOptions "other" answer

/-- Primary-language question (project-init.js:124). -/
def selectLanguage (answer : String) : String :=
  menuSelect languageOptions "other" answer

/-- Frontend-framework question (project-init.js:137). -/
def selectFrontend (answer : String) : String :=
  menuSelect frontendOptions "none" answer

/-- Architecture-pattern question (project-init.js:156). -/
def selectArchitecture (answer : String) : String :=
  menuSelect architectureOptions "layered" answer

/-- Cache question (project-init.js:173). -/
def selectCache (answer : String) : String :=
  menuSelect cacheOptions "redis" answer

/-- Message-queue question (project-init.js:187). -/
def selectQueue (answer : String) : String :=
  menuSelect queueOptions "rabbitmq" answer

/-- Database-type question (project-init.js:263). -/
def selectDatabase (answer : String) : String :=
  menuSelect databaseOptions "postgresql" answer

/-- Authentication-method question (project-init.js:301). -/
def selectAuth (answer : String) : String :=
  menuSelect authOptions "jwt" answer

/-- CI/CD-platform question (project-init.js:351). -/
def selectCIPlatform (answer : String) : String :=
  menuSelect ciPlatformOptions "github-actions" answer

/-- Environment-set question (project-init.js:399):
`envSetups[parseInt(envChoice) - 1] || ['development', 'production']`. -/
def selectEnvironments (answer : String) : List String :=
  jsOrList ((jsParseInt answer).bind (fun n => jsIndexList envSetupOptions (n - 1)))
    ["development", "production"]

/-- An answer is a bad menu answer for a menu of `len` options when it parses
to no number at all, or to a number outside `1..len`. -/
def badMenuAnswer (len : Nat) (answer : String) : Bool :=
  match jsParseInt answer with
  | none => true
  | some n => !(1 ≤ n && n ≤ (len : Int))

theorem jsIndex_eq_none {options : List String} {i : Int}
    (h : i < 0 ∨ (options.length : Int) ≤ i) : jsIndex options i = none := by
  unfold jsIndex
  rcases h with h | h
  · simp [h]
  · have h0 : ¬ i < 0 := by omega
    simp only [h0, if_false]
    apply List.get?_eq_none.mpr
    omega

theorem menuSelect_default (options : List String) (dflt answer : String)
    (h : badMenuAnswer options.length answer = true) :
    menuSelect options dflt answer = dflt := by
  unfold menuSelect badMenuAnswer at *
  cases hp : jsParseInt answer with
  | none => simp [hp, jsOrString]
  | some n =>
    rw [hp] at h
    simp only [Bool.not_eq_true'] at h
    have : n - 1 < 0 ∨ (options.length : Int) ≤ n - 1 := by
      rcases Bool.and_eq_false_iff.mp h with h1 | h1 <;>
        [left; right] <;> simp only [decide_eq_false_iff_not, not_le] at h1 <;> omega
    simp [hp, Option.bind, jsIndex_eq_none this, jsOrString]

theorem selectEnvironments_default (answer : String)
    (h : badMenuAnswer envSetupOptions.length answer = true) :
    selectEnvironments answer = ["development", "production"] := by
  unfold selectEnvironments badMenuAnswer at *
  cases hp : jsParseInt answer with
  | none => simp [hp, jsOrList]
  | some n =>
    rw [hp] at h
    simp only [Bool.not_eq_true'] at h
    have hbad : n - 1 < 0 ∨ (envSetupOptions.length : Int) ≤ n - 1 := by
      rcases Bool.and_eq_false_iff.mp h with h1 | h1 <;>
        [left; right] <;> simp only [decide_eq_false_iff_not, not_le] at h1 <;> omega
    have : jsIndexList envSetupOptions (n - 1) = none := by
      unfold jsIndexList
      rcases hbad with h' | h'
      · simp [h']
      · have h0 : ¬ n - 1 < 0 := by omega
        simp only [h0, if_false]
        apply List.get?_eq_none.mpr
        omega
    simp [hp, Option.bind, this, jsOrList]

/-! ## Project Initialization Wizard: endpoint collection (`defineAPIs`)

`defineAPIs` (project-init.js:211–225) reads answers until an empty one and
matches each against the anchored regular expression
`^(GET|POST|PUT|PATCH|DELETE)\s+(\/[^\s]*)\s*-\s*(.+)$` with the `i` flag,
storing `match[1].toUpperCase()`, `match[2]` and `match[3]`.  The functions
below implement that regular expression's backtracking semantics directly. -/

/-- The method alternatives of the endpoint regular expression, in order. -/
def httpMethods : List String := ["GET", "POST", "PUT", "PATCH", "DELETE"]

/-- Case-insensitive literal prefix test (the `i` flag applied to an
upper-case alternative). -/
def matchesMethodPrefix (cs : List Char) (m : String) : Bool :=
  (cs.take m.length).map Char.toUpper == m.toList

/-- Match the leading `(GET|POST|PUT|PATCH|DELETE)` group; since no
alternative is a prefix of another, at most one can match, so trying them in
order is exact.  Returns the upper-cased captured method (`toUpperCase` of the
matched text) and the unconsumed characters. -/
def matchMethod (cs : List Char) : Option (String × List Char) :=
  httpMethods.findSome? fun m =>
    if matchesMethodPrefix cs m then some (m, cs.drop m.length) else none

/-- Greedy `\s*(.+)$`: consume the longest run of white space (backtracking
down from `k`) that still leaves a non-empty remainder containing no line
terminator; the remainder is the `(.+)` capture. -/
def descSearch (cs : List Char) : Nat → Option (List Char)
  | 0 =>
    if !cs.isEmpty && cs.all (fun c => !(isLineTerminator c)) then some cs else none
  | k + 1 =>
    let rest := cs.drop (k + 1)
    if !rest.isEmpty && rest.all (fun c => !(isLineTerminator c)) then some rest
    else descSearch cs k

/-- Match `\s*-\s*(.+)$`: since `-` is not white space, the first greedy `\s*` is
exact; then the `descSearch` backtracking handles `\s*(.+)$`. -/
def matchDashDesc (cs : List Char) : Option (List Char) :=
  match cs.dropWhile isJsWhitespace with
  | '-' :: rest => descSearch rest (rest.takeWhile isJsWhitespace).length
  | _ => none

/-- Greedy `[^\s]*` followed by `\s*-\s*(.+)$`: try the longest non-white-space
run first (backtracking down from `j`), returning the path remainder and the
description capture of the first length that lets the tail match. -/
def pathSearch (t : List Char) : Nat → Option (List Char × List Char)
  | 0 => (matchDashDesc t).map (fun d => ([], d))
  | j + 1 =>
    match matchDashDesc (t.drop (j + 1)) with
    | some d => some (t.take (j + 1), d)
    | none => pathSearch t j

/-- One captured API endpoint (`this.config.apis` element). -/
structure Endpoint where
  method : String
  path : String
  description : String
deriving DecidableEq, Repr

/-- Semantics of `endpoint.match(/^(GET|POST|PUT|PATCH|DELETE)\s+(\/[^\s]*)\s*-\s*(.+)$/i)`
from project-init.js:215, as a total parser: `none` models a line that does
not match. -/
def parseEndpointLine (s : String) : Option Endpoint :=
  match matchMethod s.toList with
  | none => none
  | some (m, rest) =>
    let ws := rest.takeWhile isJsWhitespace
    if ws.isEmpty then none
    else
      match rest.drop ws.length with
      | '/' :: t =>
        let nw := (t.takeWhile (fun c => !(isJsWhitespace c))).length
        match pathSearch t nw with
        | some (p, d) =>
          some { method := m, path := String.mk ('/' :: p), description := String.mk d }
        | none => none
      | _ => none

/-- The `while (endpoint)` collection loop of `defineAPIs`
(project-init.js:211–225): answers are consumed until the first empty one;
matching lines are appended to the endpoint list, non-matching lines are
skipped and the loop continues. -/
def collectEndpoints (answers : List String) : List Endpoint :=
  match answers with
  | [] => []
  | a :: rest =>
    if a = "" then []
    else
      match parseEndpointLine a with
      | some e => e :: collectEndpoints rest
      | none => collectEndpoints rest

/-! ## Project Initialization Wizard: template generation

`generateTemplates` (project-init.js:731–754) always writes `.gitignore`,
`README.md` and `.env.example`; it calls `generateDockerfiles` only when
`this.config.deployment.docker` is set, and `generateCICD` only when a CI/CD
platform was chosen.  `generateDockerfiles` (project-init.js:905–982) builds a
`Dockerfile` string that is non-empty only for the `nodejs` and `python`
languages and writes the file only if that string is truthy, then always
writes `docker-compose.yml`.  The fixed `.gitignore`/`README.md`/
`.env.example` contents carry no claim, so writes are modelled by file name,
with full contents kept for the Docker files. -/

/-- The relevant slice of the wizard's `this.config` after a confirmed
session. -/
structure InitConfig where
  projectName : String
  language : String
  databaseType : String
  deployTargets : List String
  cicd : Option String
deriving DecidableEq, Repr

/-- Targets parsing of `defineDeploymentTargets` (project-init.js:335–338): split the answer on
commas, index `deployTargets` with `parseInt(c.trim()) - 1`, and
`.filter(Boolean)` the results. -/
def parseDeployTargets (answer : String) : List String :=
  ((answer.splitOn ",").map fun c =>
      (jsParseInt (jsTrim c)).bind fun n => jsIndex deployTargetOptions (n - 1)).filterMap
    fun o => o.bind fun s => if s = "" then none else some s

/-- Field `this.config.deployment.docker` (project-init.js:354–356): containerization
is implied when the targets include docker or kubernetes. -/
def deploymentDockerOf (targets : List String) : Bool :=
  targets.contains "docker" || targets.contains "kubernetes"

/-- The `dockerfile` string of `generateDockerfiles` (project-init.js:905–937):
non-empty only for the nodejs and python languages. -/
def dockerfileContent (language : String) : String :=
  if language = "nodejs" then
    "FROM node:18-alpine\n\nWORKDIR /app\n\nCOPY package*.json ./\nRUN npm ci --only=production\n\nCOPY . .\n\nEXPOSE 3000\n\nCMD [\"npm\", \"start\"]\n"
  else if language = "python" then
    "FROM python:3.11-slim\n\nWORKDIR /app\n\nCOPY requirements.txt .\nRUN pip install --no-cache-dir -r requirements.txt\n\nCOPY . .\n\nEXPOSE 8000\n\nCMD [\"python\", \"app.py\"]\n"
  else ""

/-- The app-service half of the compose template literal
(project-init.js:948–959). -/
def composeAppBlock : String :=
  "version: '3.8'\n\nservices:\n  app:\n    build: .\n    ports:\n      - \"3000:3000\"\n    environment:\n      - NODE_ENV=development\n    volumes:\n      - .:/app\n      - /app/node_modules\n"

/-- The interpolation `${this.config.database.type}:latest` of the compose
template's `image:` field (project-init.js:962). -/
def dbServiceImage (databaseType : String) : String :=
  databaseType ++ ":latest"

/-- The db-service block of the compose template literal
(project-init.js:960–974), emitted when the database type is not `'none'`:
the image is the selected database type, while the environment variables,
port and volume path are PostgreSQL-specific literals. -/
def composeDbBlock (cfg : InitConfig) : String :=
  "\n  db:\n    image: " ++ dbServiceImage cfg.databaseType ++
  "\n    environment:\n      - POSTGRES_DB=" ++ cfg.projectName ++
  "\n      - POSTGRES_USER=dev\n      - POSTGRES_PASSWORD=devpass\n    ports:\n      - \"5432:5432\"\n    volumes:\n      - db-data:/var/lib/postgresql/data\n\nvolumes:\n  db-data:\n"

/-- The full `docker-compose.yml` content (the `compose` template literal,
project-init.js:948–975). -/
def composeContent (cfg : InitConfig) : String :=
  composeAppBlock ++ (if cfg.databaseType ≠ "none" then composeDbBlock cfg else "") ++ "\n"

/-- The files written by `generateDockerfiles` (project-init.js:905–982):
the `Dockerfile` only when its content string is truthy (non-empty), then
always `docker-compose.yml`. -/
def generateDockerfilesWrites (cfg : InitConfig) : List (String × String) :=
  (if dockerfileContent cfg.language ≠ "" then
    [("Dockerfile", dockerfileContent cfg.language)]
  else []) ++ [("docker-compose.yml", composeContent cfg)]

/-- JavaScript truthiness of the possibly-unset `deployment.cicd` string. -/
def jsTruthyOptString (o : Option String) : Bool :=
  match o with
  | some s => s ≠ ""
  | none => false

/-- The files written by `generateCICD` (project-init.js:984–1042): only the
GitHub-Actions platform produces a workflow file. -/
def generateCICDFiles (cfg : InitConfig) : List String :=
  if cfg.cicd = some "github-actions" then [".github/workflows/ci-cd.yml"] else []

/-- The file names written by `generateTemplates` (project-init.js:731–754)
for a confirmed session. -/
def generateTemplatesFiles (cfg : InitConfig) : List String :=
  [".gitignore", "README.md", ".env.example"]
  ++ (if deploymentDockerOf cfg.deployTargets then
        (generateDockerfilesWrites cfg).map Prod.fst
      else [])
  ++ (if jsTruthyOptString cfg.cicd then generateCICDFiles cfg else [])

/-! ## Claim theorems for the Project Initialization Wizard -/

/-- Claim C10: In every Project Initialization Wizard session, an out-of-range
or non-numeric answer to a numbered menu prompt is answered without
re-prompting and without an error: the selection functions are total, and a
bad answer silently yields that question's fixed default — project type
`other`, primary language `other`, frontend `none`, architecture pattern
`layered`, cache `redis`, message queue `rabbitmq`, database type
`postgresql`, authentication method `jwt`, CI/CD platform `github-actions`,
and the environment set `development, production`. -/
theorem menu_bad_answer_defaults (answer : String) :
    (badMenuAnswer 8 answer = true → selectProjectType answer = "other")
    ∧ (badMenuAnswer 8 answer = true → selectLanguage answer = "other")
    ∧ (badMenuAnswer 6 answer = true → selectFrontend answer = "none")
    ∧ (badMenuAnswer 6 answer = true → selectArchitecture answer = "layered")
    ∧ (badMenuAnswer 4 answer = true → selectCache answer = "redis")
    ∧ (badMenuAnswer 5 answer = true → selectQueue answer = "rabbitmq")
    ∧ (badMenuAnswer 8 answer = true → selectDatabase answer = "postgresql")
    ∧ (badMenuAnswer 6 answer = true → selectAuth answer = "jwt")
    ∧ (badMenuAnswer 5 answer = true → selectCIPlatform answer = "github-actions")
    ∧ (badMenuAnswer 4 answer = true →
        selectEnvironments answer = ["development", "production"]) :=
  ⟨fun h => menuSelect_default projectTypeOptions "other" answer h,
   fun h => menuSelect_default languageOptions "other" answer h,
   fun h => menuSelect_default frontendOptions "none" answer h,
   fun h => menuSelect_default architectureOptions "layered" answer h,
   fun h => menuSelect_default cacheOptions "redis" answer h,
   fun h => menuSelect_default queueOptions "rabbitmq" answer h,
   fun h => menuSelect_default databaseOptions "postgresql" answer h,
   fun h => menuSelect_default authOptions "jwt" answer h,
   fun h => menuSelect_default ciPlatformOptions "github-actions" answer h,
   fun h => selectEnvironments_default answer h⟩

/-- Witness for `menu_bad_answer_defaults` at the non-numeric answer `"x"`. -/
theorem menu_bad_answer_defaults_witness :
    (badMenuAnswer 8 "x" = true ∧ badMenuAnswer 6 "x" = true
      ∧ badMenuAnswer 5 "x" = true ∧ badMenuAnswer 4 "x" = true)
    ∧ selectProjectType "x" = "other"
    ∧ selectLanguage "x" = "other"
    ∧ selectFrontend "x" = "none"
    ∧ selectArchitecture "x" = "layered"
    ∧ selectCache "x" = "redis"
    ∧ selectQueue "x" = "rabbitmq"
    ∧ selectDatabase "x" = "postgresql"
    ∧ selectAuth "x" = "jwt"
    ∧ selectCIPlatform "x" = "github-actions"
    ∧ selectEnvironments "x" = ["development", "production"] :=
  ⟨⟨by decide, by decide, by decide, by decide⟩,
   (menu_bad_answer_defaults "x").1 (by decide),
   (menu_bad_answer_defaults "x").2.1 (by decide),
   (menu_bad_answer_defaults "x").2.2.1 (by decide),
   (menu_bad_answer_defaults "x").2.2.2.1 (by decide),
   (menu_bad_answer_defaults "x").2.2.2.2.1 (by decide),
   (menu_bad_answer_defaults "x").2.2.2.2.2.1 (by decide),
   (menu_bad_answer_defaults "x").2.2.2.2.2.2.1 (by decide),
   (menu_bad_answer_defaults "x").2.2.2.2.2.2.2.1 (by decide),
   (menu_bad_answer_defaults "x").2.2.2.2.2.2.2.2.1 (by decide),
   (menu_bad_answer_defaults "x").2.2.2.2.2.2.2.2.2 (by decide)⟩

/-- Claim C7: The endpoint-collection loop parses
`GET /api/users - Get all users` into the record with method `GET`
(upper-cased, matched case-insensitively), path `/api/users` and description
`Get all users`; and any non-matching, non-empty line is silently discarded:
it contributes no endpoint record and the loop goes on with the remaining
answers (the loop stops only at an empty answer). -/
theorem endpoint_parse_and_discard :
    parseEndpointLine "GET /api/users - Get all users" =
      some { method := "GET", path := "/api/users", description := "Get all users" }
    ∧ ∀ (l : String) (rest : List String), l ≠ "" → parseEndpointLine l = none →
        collectEndpoints (l :: rest) = collectEndpoints rest := by
  refine ⟨by decide, ?_⟩
  intro l rest hne hparse
  conv_lhs => rw [collectEndpoints]
  simp [hne, hparse]

/-- Witness for `endpoint_parse_and_discard` at the non-matching line
`"this is not an endpoint"`. -/
theorem endpoint_parse_and_discard_witness :
    ("this is not an endpoint" ≠ ""
      ∧ parseEndpointLine "this is not an endpoint" = none)
    ∧ collectEndpoints ["this is not an endpoint", "POST /users - Create"]
        = collectEndpoints ["POST /users - Create"] :=
  ⟨⟨by decide, by decide⟩,
   endpoint_parse_and_discard.2 "this is not an endpoint" ["POST /users - Create"]
     (by decide) (by decide)⟩

/-- Claim C6 counterexample: A confirmed session whose deployment targets
include Docker but whose primary language is `java` does not get a
`Dockerfile` (the `dockerfile` string is empty for languages other than
nodejs/python, and falsy strings are not written), refuting the claim that
Docker or Kubernetes in the target list always yields both files. -/
theorem dockerfile_emission_counterexample :
    deploymentDockerOf ["docker"] = true
    ∧ "Dockerfile" ∉ generateTemplatesFiles
        { projectName := "svc", language := "java", databaseType := "postgresql",
          deployTargets := ["docker"], cicd := none }
    ∧ "docker-compose.yml" ∈ generateTemplatesFiles
        { projectName := "svc", language := "java", databaseType := "postgresql",
          deployTargets := ["docker"], cicd := none } := by
  refine ⟨by decide, by decide, by decide⟩

/-- Claim C6 amended: For every confirmed session: when the deployment targets
include Docker or Kubernetes, `docker-compose.yml` is always written and a
`Dockerfile` is written exactly when the primary language is `nodejs` or
`python`; when neither target is selected, neither file is written. -/
theorem docker_template_emission (cfg : InitConfig) :
    (deploymentDockerOf cfg.deployTargets = true →
      "docker-compose.yml" ∈ generateTemplatesFiles cfg
      ∧ ("Dockerfile" ∈ generateTemplatesFiles cfg ↔
          cfg.language = "nodejs" ∨ cfg.language = "python"))
    ∧ (deploymentDockerOf cfg.deployTargets = false →
      "Dockerfile" ∉ generateTemplatesFiles cfg
      ∧ "docker-compose.yml" ∉ generateTemplatesFiles cfg) := by
  have hci : ∀ s : String, s ∈ (if jsTruthyOptString cfg.cicd then
      generateCICDFiles cfg else []) → s = ".github/workflows/ci-cd.yml" := by
    intro s hs
    unfold generateCICDFiles at hs
    split at hs
    · split at hs <;> simp_all
    · simp_all
  have hdf : (dockerfileContent cfg.language = "") ↔
      ¬(cfg.language = "nodejs" ∨ cfg.language = "python") := by
    unfold dockerfileContent
    by_cases h1 : cfg.language = "nodejs" <;> by_cases h2 : cfg.language = "python" <;>
      simp [h1, h2]
  constructor
  · intro hdocker
    constructor
    · simp [generateTemplatesFiles, generateDockerfilesWrites, hdocker,
        List.mem_append]
    · constructor
      · intro hmem
        simp only [generateTemplatesFiles, hdocker, if_true, List.mem_append,
          List.mem_cons, List.not_mem_nil] at hmem
        rcases hmem with (h | h) | h
        · simp at h
        · by_contra hlang
          rw [← hdf] at hlang
          simp [generateDockerfilesWrites, hlang] at h
        · exact absurd (hci _ h) (by decide)
      · intro hlang
        have : dockerfileContent cfg.language ≠ "" := by
          rw [Ne, hdf]; simp [hlang]
        simp [generateTemplatesFiles, generateDockerfilesWrites, hdocker, this,
          List.mem_append]
  · intro hdocker
    constructor <;>
    · intro hmem
      simp only [generateTemplatesFiles, hdocker, Bool.false_eq_true, if_false,
        List.append_nil, List.mem_append, List.mem_cons, List.not_mem_nil] at hmem
      rcases hmem with h | h
      · simp at h
      · exact absurd (hci _ h) (by decide)

/-- Witness for `docker_template_emission`: a nodejs session with the Docker
target gets both files, and the same session without container targets gets
neither. -/
theorem docker_template_emission_witness :
    (deploymentDockerOf ["docker", "aws"] = true
      ∧ "docker-compose.yml" ∈ generateTemplatesFiles
          { projectName := "api", language := "nodejs", databaseType := "postgresql",
            deployTargets := ["docker", "aws"], cicd := none }
      ∧ ("Dockerfile" ∈ generateTemplatesFiles
          { projectName := "api", language := "nodejs", databaseType := "postgresql",
            deployTargets := ["docker", "aws"], cicd := none }))
    ∧ (deploymentDockerOf ["heroku"] = false
      ∧ "Dockerfile" ∉ generateTemplatesFiles
          { projectName := "api", language := "nodejs", databaseType := "postgresql",
            deployTargets := ["heroku"], cicd := none }) :=
  ⟨⟨by decide,
    ((docker_template_emission
      { projectName := "api", language := "nodejs", databaseType := "postgresql",
        deployTargets := ["docker", "aws"], cicd := none }).1 (by decide)).1,
    ((docker_template_emission
      { projectName := "api", language := "nodejs", databaseType := "postgresql",
        deployTargets := ["docker", "aws"], cicd := none }).1 (by decide)).2.mpr
      (Or.inl rfl)⟩,
   ⟨by decide,
    ((docker_template_emission
      { projectName := "api", language := "nodejs", databaseType := "postgresql",
        deployTargets := ["heroku"], cicd := none }).2 (by decide)).1⟩⟩

/-- The confirmed session used to refute the `postgres` image claim: MongoDB
selected as the database, Docker as deployment target. -/
def cfgMongo : InitConfig :=
  { projectName := "shop", language := "nodejs", databaseType := "mongodb",
    deployTargets := ["docker"], cicd := none }

/-- Claim C1 counterexample: For a confirmed session that selected MongoDB, the
generated `docker-compose.yml`'s database service image is `mongodb:latest`,
not the literal `postgres`: the compose template interpolates the selected
database type into the `image:` field. -/
theorem compose_db_image_postgres_counterexample :
    deploymentDockerOf cfgMongo.deployTargets = true
    ∧ cfgMongo.databaseType = "mongodb"
    ∧ dbServiceImage cfgMongo.databaseType = "mongodb:latest"
    ∧ dbServiceImage cfgMongo.databaseType ≠ "postgres"
    ∧ dbServiceImage cfgMongo.databaseType ≠ "postgres:latest"
    ∧ composeContent cfgMongo =
        "version: '3.8'\n\nservices:\n  app:\n    build: .\n    ports:\n      - \"3000:3000\"\n    environment:\n      - NODE_ENV=development\n    volumes:\n      - .:/app\n      - /app/node_modules\n\n  db:\n    image: mongodb:latest\n    environment:\n      - POSTGRES_DB=shop\n      - POSTGRES_USER=dev\n      - POSTGRES_PASSWORD=devpass\n    ports:\n      - \"5432:5432\"\n    volumes:\n      - db-data:/var/lib/postgresql/data\n\nvolumes:\n  db-data:\n\n" := by
  refine ⟨by decide, rfl, rfl, by decide, by decide,
    by set_option maxRecDepth 20000 in decide⟩

/-- Claim C1 amended: For every confirmed session with containerization implied
and a selected database type other than `none`: the written
`docker-compose.yml` names its database service image
`<selected type>:latest`, and since no selectable database type equals
`postgres`, the image is never the literal `postgres` — while the db
service's environment variables (`POSTGRES_DB`/`POSTGRES_USER`/
`POSTGRES_PASSWORD`), host port `5432` and volume path are PostgreSQL
literals regardless of the selected type. -/
theorem compose_db_service_image_from_selected_type (cfg : InitConfig)
    (hdocker : deploymentDockerOf cfg.deployTargets = true)
    (hdb : cfg.databaseType ≠ "none")
    (hsel : cfg.databaseType ∈ databaseOptions) :
    ("docker-compose.yml", composeContent cfg) ∈ generateDockerfilesWrites cfg
    ∧ composeContent cfg =
        composeAppBlock ++
          ("\n  db:\n    image: " ++ cfg.databaseType ++ ":latest" ++
           "\n    environment:\n      - POSTGRES_DB=" ++ cfg.projectName ++
           "\n      - POSTGRES_USER=dev\n      - POSTGRES_PASSWORD=devpass\n    ports:\n      - \"5432:5432\"\n    volumes:\n      - db-data:/var/lib/postgresql/data\n\nvolumes:\n  db-data:\n") ++ "\n"
    ∧ cfg.databaseType ≠ "postgres" := by
  refine ⟨?_, ?_, ?_⟩
  · simp [generateDockerfilesWrites, List.mem_append]
  · simp only [composeContent, composeDbBlock, dbServiceImage, hdb, ne_eq,
      not_false_eq_true, if_true, String.append_assoc]
  · simp only [databaseOptions, List.mem_cons, List.not_mem_nil, or_false] at hsel
    rcases hsel with h | h | h | h | h | h | h | h <;> rw [h] <;> decide

/-- Witness for `compose_db_service_image_from_selected_type` at `cfgMongo`. -/
theorem compose_db_service_image_from_selected_type_witness :
    (deploymentDockerOf cfgMongo.deployTargets = true
      ∧ cfgMongo.databaseType ≠ "none"
      ∧ cfgMongo.databaseType ∈ databaseOptions)
    ∧ ("docker-compose.yml", composeContent cfgMongo) ∈ generateDockerfilesWrites cfgMongo
    ∧ cfgMongo.databaseType ≠ "postgres" :=
  ⟨⟨by decide, by decide, by decide⟩,
   (compose_db_service_image_from_selected_type cfgMongo (by decide) (by decide)
      (by decide)).1,
   (compose_db_service_image_from_selected_type cfgMongo (by decide) (by decide)
      (by decide)).2.2⟩

/-! ## Error Recovery Tool

Embedding of the `ErrorRecoverySystem` scanner and fixer.  The filesystem and
git state of the target project is abstracted to exactly the observations the
tool makes (`RecoveryFs`), an Issue Record keeps the `id`, `severity` and
`fixable` fields the claims are about (the `title`/`description`/`location`
strings and the `fix` closure — represented separately by `applyFixOne` — are
omitted), and the `--auto` fix pass is the fold of the per-issue fixes over
the fixable subset of the scan, in scan order. -/

/-- One detected setup defect (an Issue Record). -/
structure Issue where
  id : String
  severity : String
  fixable : Bool
deriving DecidableEq, Repr

/-- List `agentFiles` of `checkAgentFiles` (error-recovery tool, lines 148–154):
the five required role-definition file names. -/
def requiredAgentFiles : List String :=
  ["Conductor.agent.md", "planning-subagent.agent.md", "implement-subagent.agent.md",
   "code-review-subagent.agent.md", "quality-assurance-subagent.agent.md"]

/-- The observations the Error Recovery Tool makes of the target project. -/
structure RecoveryFs where
  /-- the `.git` directory is present. -/
  gitInitialized : Bool
  /-- both `git config user.name` and `git config user.email` succeed. -/
  gitUserConfigured : Bool
  /-- the `git status --porcelain` output is non-blank. -/
  uncommittedChanges : Bool
  /-- the named role-definition file exists under `.github/agents/`. -/
  agentFilePresent : String → Bool
  /-- the named role-definition file's content starts with `---`. -/
  agentFileHasFrontmatter : String → Bool
  hasPackageJson : Bool
  pkgHasTestScript : Bool
  /-- some dependency among jest/mocha/vitest/ava/tape is declared. -/
  pkgHasTestFrameworkDep : Bool
  hasPytestIni : Bool
  hasPomXml : Bool
  hasNodeModules : Bool
  hasReadme : Bool
  hasGitignore : Bool
  hasPlansDir : Bool

def gitNotInitializedIssue : Issue := ⟨"git_not_initialized", "high", true⟩
def gitConfigMissingIssue : Issue := ⟨"git_config_missing", "medium", true⟩
def uncommittedChangesIssue : Issue := ⟨"uncommitted_changes", "info", false⟩
def missingAgentFilesIssue : Issue := ⟨"missing_agent_files", "high", true⟩
def invalidAgentIssue (file : String) : Issue := ⟨"invalid_agent_" ++ file, "medium", false⟩
def noTestScriptIssue : Issue := ⟨"no_test_script", "medium", true⟩
def noTestFrameworkIssue : Issue := ⟨"no_test_framework", "high", true⟩
def noTestSetupIssue : Issue := ⟨"no_test_setup", "high", false⟩
def depsNotInstalledIssue : Issue := ⟨"dependencies_not_installed", "high", true⟩
def noReadmeIssue : Issue := ⟨"no_readme", "low", true⟩
def noGitignoreIssue : Issue := ⟨"no_gitignore", "medium", true⟩
def noPlansDirectoryIssue : Issue := ⟨"no_plans_directory", "info", true⟩

/-- Method `checkGitIssues` (error-recovery tool, lines 98–145).  The
uncommitted-changes probe is wrapped in try/catch, so it only emits when the
`git status` subprocess succeeds — i.e. when the repository exists. -/
def checkGitIssues (s : RecoveryFs) : List Issue :=
  (if !s.gitInitialized then [gitNotInitializedIssue] else [])
  ++ (if !s.gitUserConfigured then [gitConfigMissingIssue] else [])
  ++ (if s.gitInitialized && s.uncommittedChanges then [uncommittedChangesIssue] else [])

/-- Method `checkAgentFiles` (error-recovery tool, lines 147–189): one
`missing_agent_files` record when any of the five files is absent (note
`fixable: true` in the source, line 167), plus one `invalid_agent_<file>`
record per present file lacking the `---` frontmatter delimiter. -/
def checkAgentFiles (s : RecoveryFs) : List Issue :=
  (if (requiredAgentFiles.filter (fun f => !s.agentFilePresent f)).length > 0 then
    [missingAgentFilesIssue]
  else [])
  ++ requiredAgentFiles.filterMap fun f =>
      if s.agentFilePresent f && !s.agentFileHasFrontmatter f then
        some (invalidAgentIssue f)
      else none

/-- Method `checkTestSetup` (error-recovery tool, lines 191–244). -/
def checkTestSetup (s : RecoveryFs) : List Issue :=
  (if s.hasPackageJson && !s.pkgHasTestScript then [noTestScriptIssue] else [])
  ++ (if s.hasPackageJson && !s.pkgHasTestFrameworkDep then [noTestFrameworkIssue] else [])
  ++ (let hasTestSetup :=
        (s.hasPackageJson && s.pkgHasTestScript)
        || (!s.hasPackageJson && s.hasPytestIni)
        || (!s.hasPackageJson && !s.hasPytestIni && s.hasPomXml)
      if !hasTestSetup && !s.hasPackageJson && !s.hasPytestIni then [noTestSetupIssue]
      else [])

/-- Method `checkDependencies` (error-recovery tool, lines 246–264). -/
def checkDependencies (s : RecoveryFs) : List Issue :=
  if s.hasPackageJson && !s.hasNodeModules then [depsNotInstalledIssue] else []

/-- Method `checkProjectStructure` (error-recovery tool, lines 266–290). -/
def checkProjectStructure (s : RecoveryFs) : List Issue :=
  (if !s.hasReadme then [noReadmeIssue] else [])
  ++ (if !s.hasGitignore then [noGitignoreIssue] else [])

/-- Method `checkPlansDirectory` (error-recovery tool, lines 292–305). -/
def checkPlansDirectory (s : RecoveryFs) : List Issue :=
  if !s.hasPlansDir then [noPlansDirectoryIssue] else []

/-- Method `scanForIssues` (error-recovery tool, lines 73–96): category-gated checks
in fixed order; the structure and plans checks run only for category `all`. -/
def scanForIssues (category : String) (s : RecoveryFs) : List Issue :=
  (if category = "all" || category = "git" then checkGitIssues s else [])
  ++ (if category = "all" || category = "agents" then checkAgentFiles s else [])
  ++ (if category = "all" || category = "tests" then checkTestSetup s else [])
  ++ (if category = "all" || category = "deps" then checkDependencies s else [])
  ++ (if category = "all" then checkProjectStructure s ++ checkPlansDirectory s else [])

/-- The state effect of one issue's `fix` implementation (error-recovery
tool, lines 342–478).  `fixMissingAgents` only prints manual-copy
instructions, so it leaves the state unchanged; `fixTestFramework` installs
jest and rewires the test command. -/
def applyFixOne (s : RecoveryFs) (id : String) : RecoveryFs :=
  if id = "git_not_initialized" then { s with gitInitialized := true }
  else if id = "git_config_missing" then { s with gitUserConfigured := true }
  else if id = "missing_agent_files" then s
  else if id = "no_test_script" then { s with pkgHasTestScript := true }
  else if id = "no_test_framework" then
    { s with pkgHasTestFrameworkDep := true, pkgHasTestScript := true }
  else if id = "dependencies_not_installed" then { s with hasNodeModules := true }
  else if id = "no_readme" then { s with hasReadme := true }
  else if id = "no_gitignore" then { s with hasGitignore := true }
  else if id = "no_plans_directory" then { s with hasPlansDir := true }
  else s

/-- Method `applyFixes` (error-recovery tool, lines 307–340) under `--auto`: every
fixable issue's fix is applied, in scan order, without prompting. -/
def applyFixesAuto (s : RecoveryFs) (issues : List Issue) : RecoveryFs :=
  (issues.filter (fun i => i.fixable)).foldl (fun st i => applyFixOne st i.id) s

/-- One `--auto` run: scan, then fix every fixable issue. -/
def runAutoFix (category : String) (s : RecoveryFs) : RecoveryFs :=
  applyFixesAuto s (scanForIssues category s)

/-- Every Issue Record the git/agents/tests/deps checks can emit. -/
def nonStructIssues : List Issue :=
  [gitNotInitializedIssue, gitConfigMissingIssue, uncommittedChangesIssue,
   missingAgentFilesIssue]
  ++ requiredAgentFiles.map invalidAgentIssue
  ++ [noTestScriptIssue, noTestFrameworkIssue, noTestSetupIssue,
      depsNotInstalledIssue]

/-- Every Issue Record a scan can emit, for any state and category. -/
def issueCatalogue : List Issue :=
  nonStructIssues ++ [noReadmeIssue, noGitignoreIssue, noPlansDirectoryIssue]

theorem checkGitIssues_subset (s : RecoveryFs) (i : Issue)
    (h : i ∈ checkGitIssues s) : i ∈ nonStructIssues := by
  unfold checkGitIssues at h
  simp only [List.mem_append] at h
  rcases h with (h | h) | h <;> split at h <;>
    simp_all [nonStructIssues, List.mem_append]

theorem checkAgentFiles_subset (s : RecoveryFs) (i : Issue)
    (h : i ∈ checkAgentFiles s) : i ∈ nonStructIssues := by
  unfold checkAgentFiles at h
  simp only [List.mem_append] at h
  rcases h with h | h
  · split at h <;> simp_all [nonStructIssues, List.mem_append]
  · rcases List.mem_filterMap.mp h with ⟨f, hf, hsome⟩
    split at hsome
    · cases hsome
      have hmap : invalidAgentIssue f ∈ requiredAgentFiles.map invalidAgentIssue :=
        List.mem_map_of_mem _ hf
      simp only [nonStructIssues, List.mem_append]
      exact Or.inl (Or.inr hmap)
    · cases hsome

theorem checkTestSetup_subset (s : RecoveryFs) (i : Issue)
    (h : i ∈ checkTestSetup s) : i ∈ nonStructIssues := by
  unfold checkTestSetup at h
  simp only [List.mem_append] at h
  rcases h with (h | h) | h <;> split at h <;>
    simp_all [nonStructIssues, List.mem_append]

theorem checkDependencies_subset (s : RecoveryFs) (i : Issue)
    (h : i ∈ checkDependencies s) : i ∈ nonStructIssues := by
  unfold checkDependencies at h
  split at h <;> simp_all [nonStructIssues, List.mem_append]

theorem checkProjectStructure_subset (s : RecoveryFs) (i : Issue)
    (h : i ∈ checkProjectStructure s) : i ∈ issueCatalogue := by
  unfold checkProjectStructure at h
  simp only [List.mem_append] at h
  rcases h with h | h <;> split at h <;>
    simp_all [issueCatalogue, nonStructIssues, List.mem_append]

theorem checkPlansDirectory_subset (s : RecoveryFs) (i : Issue)
    (h : i ∈ checkPlansDirectory s) : i ∈ issueCatalogue := by
  unfold checkPlansDirectory at h
  split at h <;> simp_all [issueCatalogue, nonStructIssues, List.mem_append]

/-- Every issue a scan emits is drawn from the fixed catalogue. -/
theorem mem_scan_subset (category : String) (s : RecoveryFs) (i : Issue)
    (h : i ∈ scanForIssues category s) : i ∈ issueCatalogue := by
  unfold scanForIssues at h
  simp only [List.mem_append] at h
  rcases h with (((h | h) | h) | h) | h
  · split at h
    · exact List.mem_append_left _ (checkGitIssues_subset s i h)
    · simp at h
  · split at h
    · exact List.mem_append_left _ (checkAgentFiles_subset s i h)
    · simp at h
  · split at h
    · exact List.mem_append_left _ (checkTestSetup_subset s i h)
    · simp at h
  · split at h
    · exact List.mem_append_left _ (checkDependencies_subset s i h)
    · simp at h
  · split at h
    · rcases List.mem_append.mp h with h | h
      · exact checkProjectStructure_subset s i h
      · exact checkPlansDirectory_subset s i h
    · simp at h

/-- A project state with nothing set up: the start state of the C2/C8
scenarios. -/
def bareProjectFs : RecoveryFs :=
  { gitInitialized := false, gitUserConfigured := false, uncommittedChanges := false,
    agentFilePresent := fun _ => false, agentFileHasFrontmatter := fun _ => false,
    hasPackageJson := false, pkgHasTestScript := false, pkgHasTestFrameworkDep := false,
    hasPytestIni := false, hasPomXml := false, hasNodeModules := false,
    hasReadme := false, hasGitignore := false, hasPlansDir := false }

/-- Claim C2 counterexample: On a project missing all five role-definition
files, the scan emits the `missing_agent_files` Issue Record with
`fixable = true` (error-recovery tool, line 167), refuting the claim that it
always carries `fixable = false`. -/
theorem missing_agent_files_fixable_counterexample :
    (scanForIssues "all" bareProjectFs).filter (fun i => i.id == "missing_agent_files")
      = [{ id := "missing_agent_files", severity := "high", fixable := true }] := by
  decide

/-- Claim C2 amended: For every project state and scan category, every emitted
Issue Record with id `missing_agent_files` has severity `high` and
`fixable = true` (its remediation only prints manual-copy instructions), and
every emitted Issue Record with id `no_readme` has severity `low` and
`fixable = true`. -/
theorem issue_severity_fixability (category : String) (s : RecoveryFs) (i : Issue)
    (hi : i ∈ scanForIssues category s) :
    (i.id = "missing_agent_files" → i.severity = "high" ∧ i.fixable = true)
    ∧ (i.id = "no_readme" → i.severity = "low" ∧ i.fixable = true) := by
  have hall : ∀ j ∈ issueCatalogue,
      (j.id = "missing_agent_files" → j.severity = "high" ∧ j.fixable = true)
      ∧ (j.id = "no_readme" → j.severity = "low" ∧ j.fixable = true) := by decide
  exact hall i (mem_scan_subset category s i hi)

/-- Witness for `issue_severity_fixability`: the `missing_agent_files` record
the scan of a bare project emits. -/
theorem issue_severity_fixability_witness :
    missingAgentFilesIssue ∈ scanForIssues "all" bareProjectFs
    ∧ (missingAgentFilesIssue.id = "missing_agent_files" →
        missingAgentFilesIssue.severity = "high" ∧ missingAgentFilesIssue.fixable = true) :=
  ⟨by decide,
   (issue_severity_fixability "all" bareProjectFs missingAgentFilesIssue (by decide)).1⟩

theorem applyFixOne_mono (s : RecoveryFs) (id : String) :
    (s.hasReadme = true → (applyFixOne s id).hasReadme = true)
    ∧ (s.hasGitignore = true → (applyFixOne s id).hasGitignore = true)
    ∧ (s.hasPlansDir = true → (applyFixOne s id).hasPlansDir = true) := by
  unfold applyFixOne
  split_ifs <;> refine ⟨fun h => ?_, fun h => ?_, fun h => ?_⟩ <;>
    first | rfl | exact h

theorem foldl_fix_mono (l : List Issue) (s : RecoveryFs) :
    (s.hasReadme = true →
      (l.foldl (fun st i => applyFixOne st i.id) s).hasReadme = true)
    ∧ (s.hasGitignore = true →
      (l.foldl (fun st i => applyFixOne st i.id) s).hasGitignore = true)
    ∧ (s.hasPlansDir = true →
      (l.foldl (fun st i => applyFixOne st i.id) s).hasPlansDir = true) := by
  induction l generalizing s with
  | nil => exact ⟨fun h => h, fun h => h, fun h => h⟩
  | cons a t ih =>
    refine ⟨fun h => ?_, fun h => ?_, fun h => ?_⟩ <;>
      simp only [List.foldl_cons]
    · exact (ih _).1 ((applyFixOne_mono s a.id).1 h)
    · exact (ih _).2.1 ((applyFixOne_mono s a.id).2.1 h)
    · exact (ih _).2.2 ((applyFixOne_mono s a.id).2.2 h)

theorem foldl_fix_sets (l : List Issue) (s : RecoveryFs) :
    (noReadmeIssue ∈ l →
      (l.foldl (fun st i => applyFixOne st i.id) s).hasReadme = true)
    ∧ (noGitignoreIssue ∈ l →
      (l.foldl (fun st i => applyFixOne st i.id) s).hasGitignore = true)
    ∧ (noPlansDirectoryIssue ∈ l →
      (l.foldl (fun st i => applyFixOne st i.id) s).hasPlansDir = true) := by
  induction l generalizing s with
  | nil => simp
  | cons a t ih =>
    refine ⟨fun h => ?_, fun h => ?_, fun h => ?_⟩ <;>
      simp only [List.foldl_cons]
    · rcases List.mem_cons.mp h with rfl | h
      · exact (foldl_fix_mono t _).1 rfl
      · exact (ih _).1 h
    · rcases List.mem_cons.mp h with rfl | h
      · exact (foldl_fix_mono t _).2.1 rfl
      · exact (ih _).2.1 h
    · rcases List.mem_cons.mp h with rfl | h
      · exact (foldl_fix_mono t _).2.2 rfl
      · exact (ih _).2.2 h

theorem structure_issues_in_scan (s : RecoveryFs) :
    (s.hasReadme = false → noReadmeIssue ∈ scanForIssues "all" s)
    ∧ (s.hasGitignore = false → noGitignoreIssue ∈ scanForIssues "all" s)
    ∧ (s.hasPlansDir = false → noPlansDirectoryIssue ∈ scanForIssues "all" s) := by
  refine ⟨fun h => ?_, fun h => ?_, fun h => ?_⟩ <;>
    simp [scanForIssues, checkProjectStructure, checkPlansDirectory, h,
      List.mem_append]

/-- The three structure/plans defects can only be emitted while the
corresponding artifact is absent. -/
theorem scan_ids_reflect_state (category : String) (s : RecoveryFs) (i : Issue)
    (h : i ∈ scanForIssues category s) :
    (i.id = "no_readme" → s.hasReadme = false)
    ∧ (i.id = "no_gitignore" → s.hasGitignore = false)
    ∧ (i.id = "no_plans_directory" → s.hasPlansDir = false) := by
  have hids : ∀ j ∈ nonStructIssues,
      j.id ≠ "no_readme" ∧ j.id ≠ "no_gitignore" ∧ j.id ≠ "no_plans_directory" := by
    decide
  unfold scanForIssues at h
  simp only [List.mem_append] at h
  rcases h with (((h | h) | h) | h) | h
  · split at h
    · rcases hids i (checkGitIssues_subset s i h) with ⟨h1, h2, h3⟩
      exact ⟨fun hh => absurd hh h1, fun hh => absurd hh h2, fun hh => absurd hh h3⟩
    · simp at h
  · split at h
    · rcases hids i (checkAgentFiles_subset s i h) with ⟨h1, h2, h3⟩
      exact ⟨fun hh => absurd hh h1, fun hh => absurd hh h2, fun hh => absurd hh h3⟩
    · simp at h
  · split at h
    · rcases hids i (checkTestSetup_subset s i h) with ⟨h1, h2, h3⟩
      exact ⟨fun hh => absurd hh h1, fun hh => absurd hh h2, fun hh => absurd hh h3⟩
    · simp at h
  · split at h
    · rcases hids i (checkDependencies_subset s i h) with ⟨h1, h2, h3⟩
      exact ⟨fun hh => absurd hh h1, fun hh => absurd hh h2, fun hh => absurd hh h3⟩
    · simp at h
  · split at h
    · rcases List.mem_append.mp h with h | h
      · unfold checkProjectStructure at h
        simp only [List.mem_append] at h
        rcases h with h | h <;> split at h <;>
          simp_all [noReadmeIssue, noGitignoreIssue, noPlansDirectoryIssue]
      · unfold checkPlansDirectory at h
        split at h <;>
          simp_all [noReadmeIssue, noGitignoreIssue, noPlansDirectoryIssue]
    · simp at h

/-- Claim C8: Starting from a project state with no `README.md`, no
`.gitignore` and no `plans/` directory, one `--auto` run of the Error
Recovery Tool (category `all`) repairs all three, so a second scan over the
same category set emits no Issue Record with id `no_readme`, `no_gitignore`
or `no_plans_directory`. -/
theorem autofix_convergence (s : RecoveryFs)
    (h1 : s.hasReadme = false) (h2 : s.hasGitignore = false)
    (h3 : s.hasPlansDir = false) :
    ∀ i ∈ scanForIssues "all" (runAutoFix "all" s),
      i.id ≠ "no_readme" ∧ i.id ≠ "no_gitignore" ∧ i.id ≠ "no_plans_directory" := by
  intro i hi
  have hfix : (runAutoFix "all" s).hasReadme = true
      ∧ (runAutoFix "all" s).hasGitignore = true
      ∧ (runAutoFix "all" s).hasPlansDir = true := by
    unfold runAutoFix applyFixesAuto
    have hmem := structure_issues_in_scan s
    refine ⟨(foldl_fix_sets _ s).1 ?_, (foldl_fix_sets _ s).2.1 ?_,
      (foldl_fix_sets _ s).2.2 ?_⟩
    · exact List.mem_filter.mpr ⟨hmem.1 h1, rfl⟩
    · exact List.mem_filter.mpr ⟨hmem.2.1 h2, rfl⟩
    · exact List.mem_filter.mpr ⟨hmem.2.2 h3, rfl⟩
  rcases scan_ids_reflect_state "all" (runAutoFix "all" s) i hi with ⟨g1, g2, g3⟩
  refine ⟨fun hh => ?_, fun hh => ?_, fun hh => ?_⟩
  · rw [g1 hh] at hfix; exact absurd hfix.1 (by decide)
  · rw [g2 hh] at hfix; exact absurd hfix.2.1 (by decide)
  · rw [g3 hh] at hfix; exact absurd hfix.2.2 (by decide)

/-- Witness for `autofix_convergence` at the bare project state: the second
scan still reports issues (e.g. git), but none of the three repaired ones. -/
theorem autofix_convergence_witness :
    (bareProjectFs.hasReadme = false ∧ bareProjectFs.hasGitignore = false
      ∧ bareProjectFs.hasPlansDir = false)
    ∧ (missingAgentFilesIssue ∈ scanForIssues "all" (runAutoFix "all" bareProjectFs)
        ∧ missingAgentFilesIssue.id ≠ "no_readme"
        ∧ missingAgentFilesIssue.id ≠ "no_gitignore"
        ∧ missingAgentFilesIssue.id ≠ "no_plans_directory") :=
  ⟨⟨rfl, rfl, rfl⟩,
   ⟨by decide,
    autofix_convergence bareProjectFs rfl rfl rfl missingAgentFilesIssue (by decide)⟩⟩

/-! ## Blueprint Generator: project identity detection

`analyzeProjectInfo` (blueprint-generator.js:70–115) probes, in order, for
`package.json`, `requirements.txt`, `pom.xml` and `composer.json`; the first
present manifest determines name/version/type/language; when none of the four
is present the type and language are `Unknown`.  The state records, besides
those four, the presence of `pyproject.toml` and `build.gradle` — which the
function never reads. -/

/-- The parsed fields `analyzeProjectInfo` reads from `package.json`. -/
structure PkgJson where
  name : Option String
  version : Option String
  description : Option String
deriving DecidableEq, Repr

/-- The parsed fields `analyzeProjectInfo` reads from `composer.json`. -/
structure ComposerJson where
  name : Option String
  version : Option String
deriving DecidableEq, Repr

/-- The root-directory observations of the Blueprint Generator's identity
probe (plus the two manifest kinds it does not probe). -/
structure BlueprintFs where
  packageJson : Option PkgJson
  requirementsTxt : Bool
  pomXml : Bool
  composerJson : Option ComposerJson
  pyprojectToml : Bool
  buildGradle : Bool
  basename : String
deriving DecidableEq, Repr

/-- Record `this.projectInfo` after `analyzeProjectInfo`. -/
structure ProjectInfo where
  name : String
  version : String
  description : Option String
  type : String
  language : String
deriving DecidableEq, Repr

/-- Method `analyzeProjectInfo` (blueprint-generator.js:70–115). -/
def analyzeProjectInfo (fs : BlueprintFs) : ProjectInfo :=
  match fs.packageJson with
  | some pkg =>
    { name := jsOrString pkg.name "Unknown Project",
      version := jsOrString pkg.version "1.0.0",
      description := some (jsOrString pkg.description ""),
      type := "Node.js/JavaScript", language := "JavaScript/TypeScript" }
  | none =>
    if fs.requirementsTxt then
      { name := fs.basename, version := "1.0.0", description := none,
        type := "Python", language := "Python" }
    else if fs.pomXml then
      { name := fs.basename, version := "1.0.0", description := none,
        type := "Java/Maven", language := "Java" }
    else
      match fs.composerJson with
      | some composer =>
        { name := jsOrString composer.name fs.basename,
          version := jsOrString composer.version "1.0.0", description := none,
          type := "PHP", language := "PHP" }
      | none =>
        { name := fs.basename, version := "1.0.0", description := none,
          type := "Unknown", language := "Unknown" }

/-- A directory containing only `pyproject.toml`. -/
def fsPyprojOnly : BlueprintFs :=
  { packageJson := none, requirementsTxt := false, pomXml := false,
    composerJson := none, pyprojectToml := true, buildGradle := false,
    basename := "pyproj" }

/-- A directory containing only `build.gradle`. -/
def fsGradleOnly : BlueprintFs :=
  { packageJson := none, requirementsTxt := false, pomXml := false,
    composerJson := none, pyprojectToml := false, buildGradle := true,
    basename := "gradleproj" }

/-- Claim C5 counterexample: The identity probe never reads `pyproject.toml` or
`build.gradle`: a directory containing only `pyproject.toml` is typed
`Unknown`, not `Python`, and one containing only `build.gradle` is typed
`Unknown`, not Java. -/
theorem project_identity_pyproject_gradle_counterexample :
    fsPyprojOnly.pyprojectToml = true
    ∧ (analyzeProjectInfo fsPyprojOnly).type = "Unknown"
    ∧ (analyzeProjectInfo fsPyprojOnly).type ≠ "Python"
    ∧ (analyzeProjectInfo fsPyprojOnly).language ≠ "Python"
    ∧ fsGradleOnly.buildGradle = true
    ∧ (analyzeProjectInfo fsGradleOnly).type = "Unknown"
    ∧ (analyzeProjectInfo fsGradleOnly).type ≠ "Java/Maven"
    ∧ (analyzeProjectInfo fsGradleOnly).language ≠ "Java" := by
  decide

/-- Claim C5 amended: The identity probe checks, in order, exactly
`package.json`, `requirements.txt`, `pom.xml` and `composer.json`; the first
present manifest determines the reported type/language (so a directory with
both `package.json` and `requirements.txt` is typed `Node.js/JavaScript`),
and when none of those four files is present the type and language are
`Unknown` — regardless of any `pyproject.toml` or `build.gradle`. -/
theorem analyzeProjectInfo_precedence (fs : BlueprintFs) :
    (fs.packageJson.isSome = true →
      (analyzeProjectInfo fs).type = "Node.js/JavaScript"
      ∧ (analyzeProjectInfo fs).language = "JavaScript/TypeScript")
    ∧ (fs.packageJson = none → fs.requirementsTxt = true →
      (analyzeProjectInfo fs).type = "Python"
      ∧ (analyzeProjectInfo fs).language = "Python")
    ∧ (fs.packageJson = none → fs.requirementsTxt = false → fs.pomXml = true →
      (analyzeProjectInfo fs).type = "Java/Maven"
      ∧ (analyzeProjectInfo fs).language = "Java")
    ∧ (fs.packageJson = none → fs.requirementsTxt = false → fs.pomXml = false →
        fs.composerJson.isSome = true →
      (analyzeProjectInfo fs).type = "PHP"
      ∧ (analyzeProjectInfo fs).language = "PHP")
    ∧ (fs.packageJson = none → fs.requirementsTxt = false → fs.pomXml = false →
        fs.composerJson = none →
      (analyzeProjectInfo fs).type = "Unknown"
      ∧ (analyzeProjectInfo fs).language = "Unknown") := by
  refine ⟨?_, ?_, ?_, ?_, ?_⟩
  · intro h
    rcases Option.isSome_iff_exists.mp h with ⟨pkg, hp⟩
    simp [analyzeProjectInfo, hp]
  · intro h hr
    simp [analyzeProjectInfo, h, hr]
  · intro h hr hp
    simp [analyzeProjectInfo, h, hr, hp]
  · intro h hr hp hc
    rcases Option.isSome_iff_exists.mp hc with ⟨composer, hcc⟩
    simp [analyzeProjectInfo, h, hr, hp, hcc]
  · intro h hr hp hc
    simp [analyzeProjectInfo, h, hr, hp, hc]

/-- The `package.json` fields of the `fsNodeAndPython` scenario. -/
def demoPkgJson : PkgJson :=
  { name := some "demo", version := some "2.0.0",
    description := some "demo project" }

/-- A directory with both `package.json` and `requirements.txt`. -/
def fsNodeAndPython : BlueprintFs :=
  { packageJson := some demoPkgJson,
    requirementsTxt := true, pomXml := false, composerJson := none,
    pyprojectToml := false, buildGradle := false, basename := "demo" }

/-- Witness for `analyzeProjectInfo_precedence`: with both `package.json` and
`requirements.txt` present, the JS manifest wins. -/
theorem analyzeProjectInfo_precedence_witness :
    (fsNodeAndPython.packageJson.isSome = true ∧ fsNodeAndPython.requirementsTxt = true)
    ∧ ((analyzeProjectInfo fsNodeAndPython).type = "Node.js/JavaScript"
      ∧ (analyzeProjectInfo fsNodeAndPython).language = "JavaScript/TypeScript") :=
  ⟨⟨by decide, by decide⟩, (analyzeProjectInfo_precedence fsNodeAndPython).1 (by decide)⟩

/-! ## Quality-Assurance role: rule tables and capability set

The Quality-Assurance role is defined by
`.github/agents/quality-assurance-subagent.agent.md`.  Its metadata header
declares the allowed-capability `tools` list and its `quality_standards`
section gives three declarative rule blocks — Minimum Standards for PASS,
Automatic FAIL Conditions, and Advisory Conditions — which are rendered here
as a decision function over the measurable facts of one phase. -/

/-- The `tools` list of the metadata header
(quality-assurance-subagent.agent.md, line 3). -/
def qaAgentTools : List String :=
  ["runCommands", "edit", "search", "usages", "problems", "changes",
   "testFailure", "fetch"]

/-- The `Do NOT` list of the interaction guidelines
(quality-assurance-subagent.agent.md, lines 376–381). -/
def qaAgentDoNotActions : List String :=
  ["Implement fixes yourself (just report issues)",
   "Make changes to code or tests",
   "Commit anything",
   "Proceed to next phase",
   "Engage in extended discussion (be concise)"]

/-- In the role-file capability vocabulary, `edit` is the capability that
grants file editing (spec §6: "editing"). -/
def fileEditingCapability : String := "edit"

/-- Claim C4 counterexample: The Quality-Assurance role's declared `tools` list
does grant the file-editing capability: `edit` is its second entry, refuting
the claim that the list grants no file-editing capability. -/
theorem qa_tools_contains_edit_counterexample :
    fileEditingCapability ∈ qaAgentTools := by decide

/-- Claim C4 amended: The Quality-Assurance role's `tools` list includes the
file-editing capability `edit`; the prohibition on editing is expressed only
in the role's free-text interaction guidelines, whose `Do NOT` list forbids
making changes to code or tests and implementing fixes. -/
theorem qa_edit_capability_and_guidelines :
    fileEditingCapability ∈ qaAgentTools
    ∧ "Make changes to code or tests" ∈ qaAgentDoNotActions
    ∧ "Implement fixes yourself (just report issues)" ∈ qaAgentDoNotActions := by
  decide

/-- The three possible overall verdicts of a QA Report. -/
inductive QAStatus where
  | PASS
  | ADVISORY
  | FAIL
deriving DecidableEq, Repr

/-- The measurable facts about one phase that the quality-standards rule
blocks mention. -/
structure QAMetrics where
  criticalSecurityFindings : Nat
  failingTests : Nat
  lintErrors : Nat
  lintErrorsBreakBuild : Bool
  lintWarnings : Nat
  testsExistForChanges : Bool
  hardcodedSecrets : Bool
  coverageMeasurable : Bool
  /-- line coverage of the phase's new code, in percent. -/
  newCodeCoverage : Nat
  docsUpdatedForPublicApi : Bool
  minorStyleIssues : Bool
  missingInternalDocs : Bool
  perfConcerns : Bool
  todoComments : Bool
deriving DecidableEq, Repr

/-- Block "Automatic FAIL Conditions" (quality-assurance-subagent.agent.md,
lines 197–203): any security vulnerability, a failing test suite,
build-breaking lint errors, no tests for new functionality, or hardcoded
secrets. -/
def automaticFailCondition (m : QAMetrics) : Prop :=
  0 < m.criticalSecurityFindings ∨ 0 < m.failingTests
  ∨ (0 < m.lintErrors ∧ m.lintErrorsBreakBuild = true)
  ∨ m.testsExistForChanges = false ∨ m.hardcodedSecrets = true

instance (m : QAMetrics) : Decidable (automaticFailCondition m) := by
  unfold automaticFailCondition; infer_instance

/-- Block "Minimum Standards for PASS" (quality-assurance-subagent.agent.md,
lines 187–195): no critical security vulnerabilities, no lint errors, tests
exist, all tests pass, no secrets, coverage ≥ the minimum for new code (when
measurable), documentation updated. -/
def meetsMinimumStandards (minCov : Nat) (m : QAMetrics) : Prop :=
  m.criticalSecurityFindings = 0 ∧ m.lintErrors = 0
  ∧ m.testsExistForChanges = true ∧ m.failingTests = 0
  ∧ m.hardcodedSecrets = false
  ∧ (m.coverageMeasurable = false ∨ minCov ≤ m.newCodeCoverage)
  ∧ m.docsUpdatedForPublicApi = true

instance (minCov : Nat) (m : QAMetrics) : Decidable (meetsMinimumStandards minCov m) := by
  unfold meetsMinimumStandards; infer_instance

/-- Block "Advisory Conditions (PASS with warnings)"
(quality-assurance-subagent.agent.md, lines 205–212): lint warnings, coverage
in the 60%-to-threshold band, minor style issues, missing internal-function
documentation, performance concerns, TODO comments. -/
def hasAdvisoryCondition (minCov : Nat) (m : QAMetrics) : Prop :=
  0 < m.lintWarnings
  ∨ (m.coverageMeasurable = true ∧ 60 ≤ m.newCodeCoverage ∧ m.newCodeCoverage < minCov)
  ∨ m.minorStyleIssues = true ∨ m.missingInternalDocs = true
  ∨ m.perfConcerns = true ∨ m.todoComments = true

instance (minCov : Nat) (m : QAMetrics) : Decidable (hasAdvisoryCondition minCov m) := by
  unfold hasAdvisoryCondition; infer_instance

/-- A shortfall of the minimum standards that the advisory block excuses:
everything holds except coverage, which sits in the 60%-to-threshold advisory
band. -/
def onlyAdvisoryShortfall (minCov : Nat) (m : QAMetrics) : Prop :=
  m.criticalSecurityFindings = 0 ∧ m.lintErrors = 0
  ∧ m.testsExistForChanges = true ∧ m.failingTests = 0
  ∧ m.hardcodedSecrets = false ∧ m.docsUpdatedForPublicApi = true
  ∧ m.coverageMeasurable = true ∧ 60 ≤ m.newCodeCoverage ∧ m.newCodeCoverage < minCov

instance (minCov : Nat) (m : QAMetrics) : Decidable (onlyAdvisoryShortfall minCov m) := by
  unfold onlyAdvisoryShortfall; infer_instance

/-- The overall verdict, as the three rule blocks compose: an automatic-FAIL
condition forces FAIL; meeting every minimum standard gives PASS (ADVISORY
when advisory-condition warnings are present); a shortfall the advisory block
excuses gives ADVISORY; any other shortfall is FAIL ("critical issues that
must be fixed before commit"). -/
def qaVerdict (minCov : Nat) (m : QAMetrics) : QAStatus :=
  if automaticFailCondition m then .FAIL
  else if meetsMinimumStandards minCov m then
    (if hasAdvisoryCondition minCov m then .ADVISORY else .PASS)
  else if onlyAdvisoryShortfall minCov m then .ADVISORY
  else .FAIL

/-- The default minimum coverage for new code
(quality-assurance-subagent.agent.md, line 194: "Test coverage ≥ 70%"). -/
def defaultMinCoverage : Nat := 70

/-- The verdict under the default (non-strict) rules. -/
def qaVerdictDefault (m : QAMetrics) : QAStatus :=
  qaVerdict defaultMinCoverage m

/-- An otherwise-clean phase with 65% line coverage on new code: zero failing
tests, zero security findings, zero lint errors and warnings, tests present,
documentation updated. -/
def phase65 : QAMetrics :=
  { criticalSecurityFindings := 0, failingTests := 0, lintErrors := 0,
    lintErrorsBreakBuild := false, lintWarnings := 0,
    testsExistForChanges := true, hardcodedSecrets := false,
    coverageMeasurable := true, newCodeCoverage := 65,
    docsUpdatedForPublicApi := true, minorStyleIssues := false,
    missingInternalDocs := false, perfConcerns := false, todoComments := false }

/-- The same phase with coverage dropped to 55%. -/
def phase55 : QAMetrics := { phase65 with newCodeCoverage := 55 }

/-- Claim C3: Under the default (non-strict) quality-assurance rules, an
otherwise-clean phase with 65% new-code line coverage receives ADVISORY —
never PASS (coverage is below the 70% minimum standard) and never FAIL (the
shortfall sits in the 60–70% advisory band) — and the same phase at 55%
receives FAIL. -/
theorem qa_verdict_coverage_thresholds :
    qaVerdictDefault phase65 = QAStatus.ADVISORY
    ∧ qaVerdictDefault phase65 ≠ QAStatus.PASS
    ∧ qaVerdictDefault phase65 ≠ QAStatus.FAIL
    ∧ qaVerdictDefault phase55 = QAStatus.FAIL := by
  decide

/-! ## Retrieval Service startup script: bounded health poll

`start.sh` (lines 37–54): `max_retries=30`, `retry_count=0`, then
`while [ $retry_count -lt $max_retries ]` probes the health endpoint, breaks
on success, and otherwise increments the counter and sleeps 2 seconds; after
the loop, `retry_count` equal to `max_retries` prints the diagnostic and
exits with status 1. -/

/-- The poll loop: `fuel = max_retries − retry_count`; returns the final
`retry_count` and whether a probe succeeded.  `health n` is the outcome of
the probe made while `retry_count = n`. -/
def pollLoopGo (health : Nat → Bool) : Nat → Nat → Nat × Bool
  | 0, count => (count, false)
  | fuel + 1, count =>
    if health count then (count, true) else pollLoopGo health fuel (count + 1)

/-- The loop entered with `retry_count=0`. -/
def pollLoop (health : Nat → Bool) (maxRetries : Nat) : Nat × Bool :=
  pollLoopGo health maxRetries 0

/-- Constant `max_retries=30` (start.sh, line 37). -/
def startMaxRetries : Nat := 30

/-- Total seconds slept inside the poll loop: 2 per failed probe. -/
def pollSleepSeconds (health : Nat → Bool) : Nat :=
  2 * (pollLoop health startMaxRetries).1

/-- The script's exit status after the poll (start.sh, lines 50–54). -/
def startScriptExitCode (health : Nat → Bool) : Nat :=
  if (pollLoop health startMaxRetries).1 = startMaxRetries then 1 else 0

/-- The diagnostic printed on timeout (start.sh, line 51). -/
def startScriptDiagnostic (health : Nat → Bool) : Option String :=
  if (pollLoop health startMaxRetries).1 = startMaxRetries then
    some "❌ API did not start in time"
  else none

theorem pollLoopGo_never (health : Nat → Bool) (fuel : Nat) :
    ∀ count, (∀ n, count ≤ n → n < count + fuel → health n = false) →
      pollLoopGo health fuel count = (count + fuel, false) := by
  induction fuel with
  | zero => intro count _; simp [pollLoopGo]
  | succ f ih =>
    intro count h
    have hc : health count = false := h count (Nat.le_refl _) (by omega)
    have hrec := ih (count + 1) (fun n h1 h2 => h n (by omega) (by omega))
    simp only [pollLoopGo, hc, if_false, Bool.false_eq_true]
    rw [hrec]
    refine congrArg (fun k => (k, false)) ?_
    omega

/-- The loop never runs past its fuel, whatever the health outcomes. -/
theorem pollLoopGo_le (health : Nat → Bool) (fuel : Nat) :
    ∀ count, (pollLoopGo health fuel count).1 ≤ count + fuel := by
  induction fuel with
  | zero => intro count; simp [pollLoopGo]
  | succ f ih =>
    intro count
    simp only [pollLoopGo]
    split
    · show count ≤ count + (f + 1)
      omega
    · have := ih (count + 1); omega

/-- Claim C9: If the health probe fails on every attempt the loop can make, the
startup script stops after exactly 30 probes — having slept 2 seconds after
each, a bounded 60-second wait in the poll loop — prints the diagnostic and
exits with the non-zero status 1; and (unconditionally) the loop's final
counter never exceeds 30, so it cannot poll indefinitely. -/
theorem health_poll_bounded (health : Nat → Bool)
    (h : ∀ n, n < 30 → health n = false) :
    pollLoop health 30 = (30, false)
    ∧ startScriptExitCode health = 1
    ∧ pollSleepSeconds health = 60
    ∧ startScriptDiagnostic health = some "❌ API did not start in time"
    ∧ ∀ g : Nat → Bool, (pollLoop g 30).1 ≤ 30 := by
  have hloop : pollLoop health 30 = (30, false) := by
    have := pollLoopGo_never health 30 0 (fun n _ h2 => h n (by omega))
    simpa [pollLoop] using this
  have heq : (pollLoop health startMaxRetries).1 = startMaxRetries := by
    rw [show startMaxRetries = 30 from rfl, hloop]
  refine ⟨hloop, ?_, ?_, ?_, ?_⟩
  · simp [startScriptExitCode, heq]
  · unfold pollSleepSeconds
    rw [heq]
    rfl
  · simp [startScriptDiagnostic, heq]
  · intro g
    have := pollLoopGo_le g 30 0
    simpa [pollLoop] using this

/-- Witness for `health_poll_bounded` at the never-healthy probe. -/
theorem health_poll_bounded_witness :
    (∀ n : Nat, n < 30 → (fun _ => false : Nat → Bool) n = false)
    ∧ pollLoop (fun _ => false) 30 = (30, false)
    ∧ startScriptExitCode (fun _ => false) = 1
    ∧ pollSleepSeconds (fun _ => false) = 60 :=
  ⟨fun _ _ => rfl,
   (health_poll_bounded (fun _ => false) (fun _ _ => rfl)).1,
   (health_poll_bounded (fun _ => false) (fun _ _ => rfl)).2.1,
   (health_poll_bounded (fun _ => false) (fun _ _ => rfl)).2.2.1⟩

end Orchestra
